import Mathlib

/-!
Verification of the pairing and realtime-relay core of the mobile chat client.

The definitions below are a shallow embedding of the two service classes in
src/src/services/api.ts: PairingManager (token consumption, device identity,
pairing status) and FirebaseService (command sending, status listening with
deduplication and pruning, reconnection backoff).  The Firebase realtime
database is modelled as explicit state (maps from path keys to records,
together with error-injection fields that stand for a throwing get/update/set),
and each async method becomes a pure state-passing function.  Times are epoch
milliseconds (Date.now()), converted to seconds by flooring division exactly
where the source does.
-/

namespace ChatCore

/-- A pairing/{token} record, as read and written by PairingManager
(fields desktopId, createdAt, expiresAt, used, mobileId, usedAt). -/
structure PairingRec where
  desktopId : String
  createdAt : Nat
  expiresAt : Nat
  used : Bool
  mobileId : Option String := none
  usedAt : Option Nat := none
deriving DecidableEq, Repr

/-- A devices/{deviceId} record as written by PairingManager._registerDevice
and read by isPaired / getPairedDesktopId. -/
structure DeviceRec where
  dtype : String
  paired : Bool
  pairedWith : Option String
  lastSeen : Nat
  version : String := "1.0.0"
  registeredAt : Nat := 0
deriving DecidableEq, Repr

/-- The locally persisted DeviceConfig (AsyncStorage under
the key @jarvis_device_config). -/
structure DeviceConfig where
  deviceId : String
  pairedDesktopId : Option String := none
  lastUpdated : Nat
deriving DecidableEq, Repr

/-- The remote realtime store as the pairing manager sees it: the
pairing/{token} and devices/{deviceId} subtrees, plus error-injection fields:
readError = some e means a get() on the store throws e, pairingWriteError
models a (security-rule) rejection of the conditional update on a
pairing/{token} record, deviceWriteError a failure of the set() on
devices/{deviceId}. -/
structure Store where
  pairing : String → Option PairingRec
  devices : String → Option DeviceRec
  readError : Option String := none
  pairingWriteError : Option String := none
  deviceWriteError : Option String := none

/-- Message of the "token not found" branch of submitPairingToken. -/
def msgTokenNotFound : String :=
  "Invalid code: Token not found. Please regenerate the QR code."

/-- Message of the "expired" branch of submitPairingToken. -/
def msgExpired : String :=
  "Pairing code has expired. Please regenerate the QR code."

/-- Message of the "already used" branch of submitPairingToken. -/
def msgAlreadyUsed : String :=
  "This pairing code has already been used."

/-- Message returned when the device id could not be initialized. -/
def msgDeviceIdNotInitialized : String := "Device ID not initialized"

/-- The catch-all message of submitPairingToken's try/catch. -/
def pairingErrorMsg (e : String) : String := "Pairing error: " ++ e

/-- The structured result of submitPairingToken. -/
structure SubmitResult where
  success : Bool
  message : Option String := none
deriving DecidableEq, Repr

/-- PairingManager._registerDevice: set() of the full devices/{deviceId}
record (type mobile, paired true, pairedWith desktopId, lastSeen and
registeredAt in seconds).  A deviceWriteError makes the set() throw. -/
def registerDevice (deviceId desktopId : String) (nowSec : Nat) (st : Store) :
    Except String Store :=
  match st.deviceWriteError with
  | some e => .error e
  | none =>
      .ok { st with
            devices := fun k =>
              if k = deviceId then
                some { dtype := "mobile", paired := true,
                       pairedWith := some desktopId, lastSeen := nowSec,
                       version := "1.0.0", registeredAt := nowSec }
              else st.devices k }

/-- PairingManager.submitPairingToken.  deviceId? is the device id after the
lazy _initializeDeviceId attempt (none when that failed), nowMs is Date.now(),
localCfg the AsyncStorage state.  Returns the structured result together with
the new store and local-config state.  The steps follow the source in order:
device-id guard, get() of pairing/{token} (throwing when readError is set,
which the outer catch turns into a structured failure), not-found check,
expiry check against Math.floor(nowMs / 1000), used check, conditional
update of the token record (throwing when pairingWriteError is set),
_registerDevice, and _saveDeviceConfig.  Note that when _registerDevice
throws, the token update has already been committed remotely. -/
def submitPairingToken (deviceId? : Option String) (nowMs : Nat) (token : String)
    (st : Store) (localCfg : Option DeviceConfig) :
    SubmitResult × Store × Option DeviceConfig :=
  match deviceId? with
  | none => ({ success := false, message := some msgDeviceIdNotInitialized }, st, localCfg)
  | some deviceId =>
    match st.readError with
    | some e => ({ success := false, message := some (pairingErrorMsg e) }, st, localCfg)
    | none =>
      match st.pairing token with
      | none => ({ success := false, message := some msgTokenNotFound }, st, localCfg)
      | some tokenData =>
        let currentTime := nowMs / 1000
        if tokenData.expiresAt < currentTime then
          ({ success := false, message := some msgExpired }, st, localCfg)
        else if tokenData.used then
          ({ success := false, message := some msgAlreadyUsed }, st, localCfg)
        else
          match st.pairingWriteError with
          | some e => ({ success := false, message := some (pairingErrorMsg e) }, st, localCfg)
          | none =>
            let newRec : PairingRec :=
              { tokenData with used := true, mobileId := some deviceId,
                               usedAt := some currentTime }
            let st1 : Store :=
              { st with pairing := fun k => if k = token then some newRec else st.pairing k }
            match registerDevice deviceId tokenData.desktopId currentTime st1 with
            | .error e => ({ success := false, message := some (pairingErrorMsg e) }, st1, localCfg)
            | .ok st2 =>
                ({ success := true },
                 st2,
                 some { deviceId := deviceId,
                        pairedDesktopId := some tokenData.desktopId,
                        lastUpdated := nowMs })

/-- PairingManager.isPaired: reads devices/{deviceId} and returns
deviceData.paired === true; every failure path (uninitialized device id,
throwing get) is caught and returns false. -/
def isPaired (deviceId? : Option String) (st : Store) : Bool :=
  match deviceId? with
  | none => false
  | some deviceId =>
    match st.readError with
    | some _ => false
    | none =>
      match st.devices deviceId with
      | none => false
      | some d => d.paired

/-- PairingManager.getPairedDesktopId: reads devices/{deviceId} and returns
deviceData.pairedWith when deviceData.paired holds; every failure path is
caught and returns none. -/
def getPairedDesktopId (deviceId? : Option String) (st : Store) : Option String :=
  match deviceId? with
  | none => none
  | some deviceId =>
    match st.readError with
    | some _ => none
    | none =>
      match st.devices deviceId with
      | none => none
      | some d => if d.paired then d.pairedWith else none

/-- The store of the C1 witness scenario: one fresh token, no devices. -/
def c1Store : Store :=
  { pairing := fun k =>
      if k = "pair_abc123" then
        some { desktopId := "desktop_w", createdAt := 1000, expiresAt := 1300, used := false }
      else none,
    devices := fun _ => none }

/-- The store of the C2 counterexample: a token that is both used and expired. -/
def c2Store : Store :=
  { pairing := fun k =>
      if k = "pair_u" then
        some { desktopId := "desktop_c", createdAt := 0, expiresAt := 100, used := true }
      else none,
    devices := fun _ => none }

/-- C1: for a token whose record exists with used=false and unexpired expiry,
a first submitPairingToken returns success, marks the record used=true with
mobileId the local device id, and getPairedDesktopId afterwards returns the
token's desktopId. -/
theorem submitPairingToken_first_use_success
    (deviceId token : String) (nowMs : Nat) (st : Store) (localCfg : Option DeviceConfig)
    (rec : PairingRec)
    (hrec : st.pairing token = some rec)
    (hunused : rec.used = false)
    (hfresh : ¬ rec.expiresAt < nowMs / 1000)
    (hread : st.readError = none)
    (hpw : st.pairingWriteError = none)
    (hdw : st.deviceWriteError = none) :
    (submitPairingToken (some deviceId) nowMs token st localCfg).1 = { success := true } ∧
    (submitPairingToken (some deviceId) nowMs token st localCfg).2.1.pairing token =
      some { rec with used := true, mobileId := some deviceId,
                      usedAt := some (nowMs / 1000) } ∧
    getPairedDesktopId (some deviceId)
      (submitPairingToken (some deviceId) nowMs token st localCfg).2.1 =
      some rec.desktopId := by
  simp only [submitPairingToken, hread, hrec, hunused, if_neg hfresh, Bool.false_eq_true,
    if_false, hpw, registerDevice, hdw, getPairedDesktopId, if_pos rfl, if_true]
  simp

/-- C1 witness: the scenario of the spec (createdAt 1000, expiresAt 1300,
now 1200 s) run through the theorem at concrete inputs. -/
theorem submitPairingToken_first_use_success_witness :
    (submitPairingToken (some "mobile_w1") 1200000 "pair_abc123" c1Store none).1 =
      { success := true } ∧
    (submitPairingToken (some "mobile_w1") 1200000 "pair_abc123" c1Store none).2.1.pairing
        "pair_abc123" =
      some { desktopId := "desktop_w", createdAt := 1000, expiresAt := 1300, used := true,
             mobileId := some "mobile_w1", usedAt := some 1200 } ∧
    getPairedDesktopId (some "mobile_w1")
        (submitPairingToken (some "mobile_w1") 1200000 "pair_abc123" c1Store none).2.1 =
      some "desktop_w" :=
  submitPairingToken_first_use_success "mobile_w1" "pair_abc123" 1200000 c1Store none
    { desktopId := "desktop_w", createdAt := 1000, expiresAt := 1300, used := false }
    rfl rfl (by decide) rfl rfl rfl

/-- C2 counterexample: a used token whose expiry has also passed is answered
with the "expired" message, not the "already used" message, because the
expiry check precedes the used check in submitPairingToken. -/
theorem submitPairingToken_used_expired_gives_expired_message :
    (c2Store.pairing "pair_u").map PairingRec.used = some true ∧
    (submitPairingToken (some "mobile_c2") 2000000 "pair_u" c2Store none).1 =
      { success := false, message := some msgExpired } ∧
    msgExpired ≠ msgAlreadyUsed := by
  refine ⟨rfl, rfl, ?_⟩
  decide

/-- C2 amended: a call on a used token always fails and leaves the store and
local config unchanged (the token is consumed at most once); the message is
the "already used" one whenever the token has not also expired (an expired
used token gets the "expired" message instead). -/
theorem submitPairingToken_used_token_fails
    (deviceId token : String) (nowMs : Nat) (st : Store) (localCfg : Option DeviceConfig)
    (rec : PairingRec)
    (hrec : st.pairing token = some rec)
    (hused : rec.used = true)
    (hread : st.readError = none) :
    (submitPairingToken (some deviceId) nowMs token st localCfg).1.success = false ∧
    (submitPairingToken (some deviceId) nowMs token st localCfg).2 = (st, localCfg) ∧
    (¬ rec.expiresAt < nowMs / 1000 →
      (submitPairingToken (some deviceId) nowMs token st localCfg).1.message =
        some msgAlreadyUsed) := by
  simp only [submitPairingToken, hread, hrec, hused]
  by_cases hexp : rec.expiresAt < nowMs / 1000
  · simp [hexp]
  · simp [hexp]

/-- C2 witness: a used, unexpired token at concrete inputs. -/
theorem submitPairingToken_used_token_fails_witness :
    (submitPairingToken (some "mobile_c2") 50000 "pair_u" c2Store none).1.success = false ∧
    (submitPairingToken (some "mobile_c2") 50000 "pair_u" c2Store none).2 = (c2Store, none) ∧
    (¬ (100 : Nat) < 50000 / 1000 →
      (submitPairingToken (some "mobile_c2") 50000 "pair_u" c2Store none).1.message =
        some msgAlreadyUsed) :=
  submitPairingToken_used_token_fails "mobile_c2" "pair_u" 50000 c2Store none
    { desktopId := "desktop_c", createdAt := 0, expiresAt := 100, used := true }
    rfl rfl rfl

/-- C3: a token whose record exists and whose expiresAt lies strictly before
the current time (in seconds) is rejected with the "expired" message and
nothing in the store or local config changes, even when the record is unused. -/
theorem submitPairingToken_expired
    (deviceId token : String) (nowMs : Nat) (st : Store) (localCfg : Option DeviceConfig)
    (rec : PairingRec)
    (hrec : st.pairing token = some rec)
    (hexp : rec.expiresAt < nowMs / 1000)
    (hread : st.readError = none) :
    submitPairingToken (some deviceId) nowMs token st localCfg =
      ({ success := false, message := some msgExpired }, st, localCfg) := by
  simp [submitPairingToken, hread, hrec, hexp]

/-- C3 witness: an unused but expired token at concrete inputs. -/
theorem submitPairingToken_expired_witness :
    submitPairingToken (some "mobile_w3") 1400000 "pair_abc123" c1Store none =
      ({ success := false, message := some msgExpired }, c1Store, none) :=
  submitPairingToken_expired "mobile_w3" "pair_abc123" 1400000 c1Store none
    { desktopId := "desktop_w", createdAt := 1000, expiresAt := 1300, used := false }
    rfl (by decide) rfl

/-- C8: whenever any store operation of token consumption fails (a throwing
get, a denied conditional update on the token record, or a failing device
registration), submitPairingToken returns a structured failure with a
message, never an assumed success and never an unhandled error. -/
theorem submitPairingToken_structured_failure
    (deviceId? : Option String) (nowMs : Nat) (token : String) (st : Store)
    (localCfg : Option DeviceConfig)
    (herr : st.readError ≠ none ∨ st.pairingWriteError ≠ none ∨ st.deviceWriteError ≠ none) :
    (submitPairingToken deviceId? nowMs token st localCfg).1.success = false ∧
    (submitPairingToken deviceId? nowMs token st localCfg).1.message.isSome = true := by
  cases deviceId? with
  | none => simp [submitPairingToken]
  | some deviceId =>
    cases hre : st.readError with
    | some e => simp [submitPairingToken, hre]
    | none =>
      cases hrec : st.pairing token with
      | none => simp [submitPairingToken, hre, hrec]
      | some rec =>
        by_cases hexp : rec.expiresAt < nowMs / 1000
        · simp [submitPairingToken, hre, hrec, hexp]
        · by_cases hused : rec.used = true
          · simp [submitPairingToken, hre, hrec, hexp, hused]
          · cases hpw : st.pairingWriteError with
            | some e => simp [submitPairingToken, hre, hrec, hexp, hused, hpw]
            | none =>
              cases hdw : st.deviceWriteError with
              | some e =>
                  simp [submitPairingToken, hre, hrec, hexp, hused, hpw,
                    registerDevice, hdw]
              | none =>
                  rcases herr with h | h | h
                  · exact absurd hre h
                  · exact absurd hpw h
                  · exact absurd hdw h

/-- The store of the C8 witness: a fresh token but a denied conditional
update on the pairing record. -/
def c8Store : Store :=
  { pairing := fun k =>
      if k = "pair_abc123" then
        some { desktopId := "desktop_w", createdAt := 1000, expiresAt := 1300, used := false }
      else none,
    devices := fun _ => none,
    pairingWriteError := some "PERMISSION_DENIED" }

/-- C8 witness: a security-rule rejection of the token update at concrete
inputs yields a structured failure. -/
theorem submitPairingToken_structured_failure_witness :
    (submitPairingToken (some "mobile_w8") 1200000 "pair_abc123" c8Store none).1.success
      = false ∧
    (submitPairingToken (some "mobile_w8") 1200000 "pair_abc123" c8Store none).1.message.isSome
      = true :=
  submitPairingToken_structured_failure (some "mobile_w8") 1200000 "pair_abc123" c8Store none
    (Or.inr (Or.inl (by decide)))

/-- C10: isPaired and getPairedDesktopId never propagate an error: with an
uninitialized device id, with a throwing store read, or with an absent device
record they return false and none respectively (they are total functions into
Bool and Option String, so no rejection can escape). -/
theorem isPaired_getPairedDesktopId_never_reject (st : Store) :
    (isPaired none st = false ∧ getPairedDesktopId none st = none) ∧
    (∀ e deviceId, st.readError = some e →
      isPaired (some deviceId) st = false ∧
      getPairedDesktopId (some deviceId) st = none) ∧
    (∀ deviceId, st.devices deviceId = none →
      isPaired (some deviceId) st = false ∧
      getPairedDesktopId (some deviceId) st = none) := by
  refine ⟨⟨rfl, rfl⟩, ?_, ?_⟩
  · intro e deviceId hre
    simp [isPaired, getPairedDesktopId, hre]
  · intro deviceId hdev
    cases hre : st.readError with
    | some e => simp [isPaired, getPairedDesktopId, hre]
    | none => simp [isPaired, getPairedDesktopId, hre, hdev]

/-- A Command message as FirebaseService.sendCommand builds it
(type "command", the free text, the send timestamp in ms, processed false). -/
structure CommandMessage where
  ctype : String
  text : String
  timestamp : Nat
  processed : Bool
deriving DecidableEq, Repr

/-- The command inboxes of the realtime store: for each desktop id the list of
(store key, message) pairs of messages/{desktopId}/commands, in key
(insertion) order. -/
structure MsgStore where
  commands : String → List (String × CommandMessage)

/-- The two precondition errors sendCommand throws before touching the store. -/
inductive SendError where
  | notPaired
  | notConnected
deriving DecidableEq, Repr

/-- FirebaseService.sendCommand: requires a paired desktop and a live
connection, else throws NotPaired / NotConnected (in that order) without any
store write; otherwise pushes the command message under the counterpart's
inbox with the fresh store-assigned key and returns that key. -/
def sendCommand (pairedDesktopId : Option String) (isConnected : Bool)
    (commandText : String) (nowMs : Nat) (freshKey : String) (st : MsgStore) :
    Except SendError String × MsgStore :=
  match pairedDesktopId with
  | none => (.error .notPaired, st)
  | some desktopId =>
    if isConnected = false then (.error .notConnected, st)
    else
      let msg : CommandMessage :=
        { ctype := "command", text := commandText, timestamp := nowMs, processed := false }
      (.ok freshKey,
       { commands := fun k =>
           if k = desktopId then st.commands desktopId ++ [(freshKey, msg)]
           else st.commands k })

/-- C7: sendCommand while unpaired fails with NotPaired (whatever the
connection state), and while paired but disconnected fails with NotConnected;
in both cases the store is returned unchanged — the rejection happens before
any write and the command is never queued. -/
theorem sendCommand_precondition_errors (commandText : String) (nowMs : Nat)
    (freshKey : String) (st : MsgStore) :
    (∀ conn, sendCommand none conn commandText nowMs freshKey st =
      (.error .notPaired, st)) ∧
    (∀ desktopId, sendCommand (some desktopId) false commandText nowMs freshKey st =
      (.error .notConnected, st)) := by
  constructor
  · intro conn
    rfl
  · intro desktopId
    rfl

/-- The reconnect attempt cap of FirebaseService (maxReconnectAttempts). -/
def maxReconnectAttempts : Nat := 10

/-- The base reconnect delay in ms (reconnectDelay's initial value). -/
def baseReconnectDelay : Nat := 1000

/-- The reconnect delay cap in ms (maxReconnectDelay). -/
def maxReconnectDelayMs : Nat := 30000

/-- The reconnection bookkeeping of FirebaseService: reconnectTimer models
the reconnectInterval handle (some d = a timer pending with delay d ms),
together with the reconnectAttempts counter and the reconnectDelay base. -/
structure ReconnectState where
  reconnectTimer : Option Nat := none
  reconnectAttempts : Nat := 0
  reconnectDelay : Nat := baseReconnectDelay
deriving DecidableEq, Repr

/-- FirebaseService._scheduleReconnect: a no-op when a timer is already
pending or the attempt cap is reached; otherwise increments the attempt
counter and schedules a timer with delay
min(reconnectDelay * 2^(attempts - 1), maxReconnectDelay). -/
def scheduleReconnect (s : ReconnectState) : ReconnectState :=
  if s.reconnectTimer.isSome then s
  else if maxReconnectAttempts ≤ s.reconnectAttempts then s
  else
    let attempts := s.reconnectAttempts + 1
    { s with
      reconnectAttempts := attempts,
      reconnectTimer :=
        some (min (s.reconnectDelay * 2 ^ (attempts - 1)) maxReconnectDelayMs) }

/-- The tail of FirebaseService.connect() on success: the attempt counter and
delay are reset to their base values (the pending-timer handle is untouched). -/
def connectSuccess (s : ReconnectState) : ReconnectState :=
  { s with reconnectAttempts := 0, reconnectDelay := baseReconnectDelay }

/-- The timer callback's first action: the reconnectInterval handle is
cleared before connect() is retried. -/
def timerFire (s : ReconnectState) : ReconnectState :=
  { s with reconnectTimer := none }

/-- The state after the initial connect() failure and n subsequent automatic
reconnect attempts that all failed: each failed attempt clears its timer and
calls _scheduleReconnect again. -/
def failRun : Nat → ReconnectState
  | 0 => scheduleReconnect {}
  | n + 1 => scheduleReconnect (timerFire (failRun n))

/-- Closed form of the all-failures run: while fewer than maxReconnectAttempts
attempts have been scheduled, a timer with the exponential delay is pending;
from the tenth failed reconnect attempt on, the state is terminal with no
timer. -/
theorem failRun_eq (n : Nat) :
    failRun n =
      if n < maxReconnectAttempts then
        { reconnectTimer := some (min (baseReconnectDelay * 2 ^ n) maxReconnectDelayMs),
          reconnectAttempts := n + 1,
          reconnectDelay := baseReconnectDelay }
      else
        { reconnectTimer := none,
          reconnectAttempts := maxReconnectAttempts,
          reconnectDelay := baseReconnectDelay } := by
  induction n with
  | zero => decide
  | succ n ih =>
    by_cases h : n + 1 < maxReconnectAttempts
    · have hn : n < maxReconnectAttempts := Nat.lt_of_succ_lt h
      simp only [failRun, ih, if_pos hn, if_pos h, timerFire, scheduleReconnect]
      simp only [Option.isSome_none, Bool.false_eq_true, if_false]
      have hle : ¬ maxReconnectAttempts ≤ n + 1 := Nat.not_le_of_lt h
      simp [hle]
    · by_cases hn : n < maxReconnectAttempts
      · have heq : n + 1 = maxReconnectAttempts := by omega
        simp only [failRun, ih, if_pos hn, if_neg h, timerFire, scheduleReconnect]
        simp only [Option.isSome_none, Bool.false_eq_true, if_false]
        simp [heq]
      · simp only [failRun, ih, if_neg hn, if_neg h, timerFire, scheduleReconnect]
        simp [maxReconnectAttempts]

/-- C6: (1) while fewer than 10 reconnect attempts have failed, the timer
pending between attempts k and k+1 has delay min(1000 * 2^k, 30000) ms;
(2) from the 10th failed attempt on no further reconnect timer is scheduled
and the state stays terminal; (3) a pending timer suppresses any new schedule
request, so at most one timer is pending; (4) a successful connect resets
the attempt counter and delay to their base values. -/
theorem reconnect_policy :
    (∀ n, n < 10 → (failRun n).reconnectTimer =
      some (min (1000 * 2 ^ n) 30000)) ∧
    (∀ n, 10 ≤ n → (failRun n).reconnectTimer = none ∧ failRun n = failRun 10) ∧
    (∀ s : ReconnectState, s.reconnectTimer.isSome → scheduleReconnect s = s) ∧
    (∀ s : ReconnectState, (connectSuccess s).reconnectAttempts = 0 ∧
      (connectSuccess s).reconnectDelay = 1000) := by
  refine ⟨?_, ?_, ?_, ?_⟩
  · intro n hn
    rw [failRun_eq]
    simp [maxReconnectAttempts, baseReconnectDelay, maxReconnectDelayMs, hn]
  · intro n hn
    have h1 : ¬ n < maxReconnectAttempts := by simp [maxReconnectAttempts]; omega
    have h2 : ¬ (10 : Nat) < maxReconnectAttempts := by simp [maxReconnectAttempts]
    rw [failRun_eq, failRun_eq]
    simp [h1, h2]
  · intro s hs
    simp [scheduleReconnect, hs]
  · intro s
    exact ⟨rfl, rfl⟩

/-- The template string of PairingManager._generateUUID. -/
def uuidTemplate : String := "xxxxxxxx-xxxx-4xxx-yxxx-xxxxxxxxxxxx"

/-- v.toString(16) for one nibble: 0-9 then a-f. -/
def hexDigitChar (n : Nat) : Char :=
  if n < 10 then Char.ofNat (48 + n) else Char.ofNat (87 + n)

/-- PairingManager._generateUUID as the character list of the produced
string: every x of the template becomes a random nibble r, every y becomes
(r & 0x3) | 0x8; rand i models the Math.random()*16|0 draw at template
position i. -/
def generateUUID (rand : Nat → Nat) : List Char :=
  uuidTemplate.toList.enum.map fun p =>
    if p.2 = 'x' then hexDigitChar (rand p.1 % 16)
    else if p.2 = 'y' then hexDigitChar ((rand p.1 % 16 &&& 3) ||| 8)
    else p.2

/-- The fresh device id of _getOrCreateDeviceId:
mobile_ followed by uuid.substring(0, 16). -/
def freshDeviceId (rand : Nat → Nat) : String :=
  String.mk ("mobile_".toList ++ (generateUUID rand).take 16)

/-- PairingManager._getOrCreateDeviceId over the persisted AsyncStorage
state: an existing config with a non-empty deviceId is returned as is; an
absent or unreadable config (both modelled by none, since a load failure only
warns and falls through) leads to generating and persisting a fresh id. -/
def getOrCreateDeviceId (stored : Option DeviceConfig) (rand : Nat → Nat) (nowMs : Nat) :
    String × Option DeviceConfig :=
  match stored with
  | some config =>
    if config.deviceId ≠ "" then (config.deviceId, some config)
    else
      (freshDeviceId rand,
       some { deviceId := freshDeviceId rand, pairedDesktopId := none, lastUpdated := nowMs })
  | none =>
      (freshDeviceId rand,
       some { deviceId := freshDeviceId rand, pairedDesktopId := none, lastUpdated := nowMs })

/-- Hexadecimal digit test on characters. -/
def isHexChar (c : Char) : Bool :=
  c.isDigit || ('a' ≤ c && c ≤ 'f') || ('A' ≤ c && c ≤ 'F')

/-- Every nibble renders as a hexadecimal character. -/
theorem isHexChar_hexDigitChar : ∀ n < 16, isHexChar (hexDigitChar n) = true := by
  decide

/-- C9 counterexample: with the all-zero random draw the generated identifier
is mobile_00000000-0000-40, whose 16-character suffix contains hyphens, so it
is not of the form mobile_ followed by 16 hexadecimal characters. -/
theorem freshDeviceId_not_sixteen_hex :
    (getOrCreateDeviceId none (fun _ => 0) 0).1 = "mobile_00000000-0000-40" ∧
    ((getOrCreateDeviceId none (fun _ => 0) 0).1.toList.drop 7).all isHexChar = false := by
  decide

/-- C9 amended: on first call with no persisted configuration the operation
generates mobile_ followed by the first 16 characters of a UUID-v4-format
string — hexadecimal at every offset except offsets 8 and 13, which are
hyphens — persists it, and returns it; every subsequent call returns the same
identifier and leaves the persisted configuration unchanged. -/
theorem getOrCreateDeviceId_format_and_idempotent (rand r2 : Nat → Nat) (nowMs n2 : Nat) :
    ((getOrCreateDeviceId none rand nowMs).1.toList.take 7 = "mobile_".toList) ∧
    ((getOrCreateDeviceId none rand nowMs).1.toList.drop 7).length = 16 ∧
    (∀ i, i < 16 → i ≠ 8 → i ≠ 13 →
      isHexChar (((getOrCreateDeviceId none rand nowMs).1.toList.drop 7).getD i '-') = true) ∧
    ((getOrCreateDeviceId none rand nowMs).1.toList.drop 7).getD 8 '-' = '-' ∧
    ((getOrCreateDeviceId none rand nowMs).1.toList.drop 7).getD 13 '-' = '-' ∧
    (getOrCreateDeviceId none rand nowMs).2 =
      some { deviceId := (getOrCreateDeviceId none rand nowMs).1,
             pairedDesktopId := none, lastUpdated := nowMs } ∧
    getOrCreateDeviceId (getOrCreateDeviceId none rand nowMs).2 r2 n2 =
      ((getOrCreateDeviceId none rand nowMs).1,
       (getOrCreateDeviceId none rand nowMs).2) := by
  refine ⟨rfl, rfl, ?_, rfl, rfl, rfl, rfl⟩
  intro i h1 h8 h13
  interval_cases i
  all_goals first
    | rfl
    | exact isHexChar_hexDigitChar _ (Nat.mod_lt _ (by decide))
    | exact absurd rfl h8
    | exact absurd rfl h13

/-- A status message as delivered to the listenForStatus callback
(type status/progress/error/completion, message text, optional progress,
timestamp in ms). -/
structure StatusMsg where
  stype : String
  message : String
  progress : Option Nat := none
  timestamp : Nat
deriving DecidableEq, Repr

/-- One entry of the messages/{deviceId}/status inbox: the store-assigned
key together with the message.  The inbox is kept as a list in key
(chronological insertion) order, which is the order Object.keys returns for
push keys. -/
abbrev StatusEntry := String × StatusMsg

/-- The comparator of the snapshot handler: ascending by the timestamp field. -/
def tsLE (a b : StatusEntry) : Prop := a.2.timestamp ≤ b.2.timestamp

instance : DecidableRel tsLE := fun a b => Nat.decLe a.2.timestamp b.2.timestamp

instance : IsTotal StatusEntry tsLE := ⟨fun a b => Nat.le_total a.2.timestamp b.2.timestamp⟩

instance : IsTrans StatusEntry tsLE := ⟨fun _ _ _ h h2 => Nat.le_trans h h2⟩

/-- The outcome of one onValue snapshot in FirebaseService.listenForStatus:
the inbox remaining in the store, the processedMessageIds set (as a list in
insertion order) and the messages handed to the callback, in order. -/
structure SnapshotOutcome where
  inbox : List StatusEntry
  seen : List String
  delivered : List StatusEntry
deriving DecidableEq, Repr

/-- One run of the onValue snapshot handler of listenForStatus on a non-null
snapshot: sort the present entries by timestamp (a stable sort of the keys by
their timestamp, as the source's Array.prototype.sort), deliver those whose
key is not yet in processedMessageIds and add them to the set; then, if
anything new was delivered and the snapshot holds more than 10 entries,
remove the entries with the first statusKeys.length - 10 keys from the store
and from the set — Array.prototype.sort is in place, so statusKeys is the
timestamp-sorted key array by then and the removed slice is the oldest by
timestamp; finally, if the set exceeds 50 ids, evict the oldest until 50
remain. -/
def processSnapshot (inbox : List StatusEntry) (seen : List String) : SnapshotOutcome :=
  let sorted := List.insertionSort tsLE inbox
  let delivered := sorted.filter fun e => decide (e.1 ∉ seen)
  let seen1 := seen ++ delivered.map Prod.fst
  let statusKeys := sorted.map Prod.fst
  let pruned :=
    if delivered ≠ [] ∧ 10 < statusKeys.length then
      (inbox.filter fun e => decide (e.1 ∉ statusKeys.take (statusKeys.length - 10)),
       seen1.filter fun k => decide (k ∉ statusKeys.take (statusKeys.length - 10)))
    else (inbox, seen1)
  { inbox := pruned.1,
    seen := if 50 < pruned.2.length then pruned.2.drop (pruned.2.length - 50) else pruned.2,
    delivered := delivered }

/-- Entry-level version: filtering an inbox with Nodup keys by
non-membership of the key in the m-prefix of its key list drops exactly the
first m entries. -/
theorem filter_key_not_mem_take (l : List StatusEntry) (m : Nat)
    (h : (l.map Prod.fst).Nodup) :
    (l.filter fun e => decide (e.1 ∉ (l.map Prod.fst).take m)) = l.drop m := by
  have h1 : ∀ e ∈ l.take m, ¬ ((fun e : StatusEntry =>
      decide (e.1 ∉ (l.map Prod.fst).take m)) e = true) := by
    intro e he
    have hm : e.1 ∈ (l.map Prod.fst).take m := by
      rw [← List.map_take]
      exact List.mem_map_of_mem Prod.fst he
    simp [hm]
  have h2 : ∀ e ∈ l.drop m, (fun e : StatusEntry =>
      decide (e.1 ∉ (l.map Prod.fst).take m)) e = true := by
    intro e he
    have hmem : e.1 ∈ (l.map Prod.fst).drop m := by
      rw [← List.map_drop]
      exact List.mem_map_of_mem Prod.fst he
    have hd : List.Disjoint ((l.map Prod.fst).take m) ((l.map Prod.fst).drop m) := by
      have hh := h
      rw [← List.take_append_drop m (l.map Prod.fst)] at hh
      exact (List.nodup_append.mp hh).2.2
    simp [List.disjoint_right.mp hd hmem]
  calc (l.filter fun e => decide (e.1 ∉ (l.map Prod.fst).take m))
      = ((l.take m ++ l.drop m).filter fun e => decide (e.1 ∉ (l.map Prod.fst).take m)) := by
        rw [List.take_append_drop]
    _ = ((l.take m).filter fun e => decide (e.1 ∉ (l.map Prod.fst).take m)) ++
        ((l.drop m).filter fun e => decide (e.1 ∉ (l.map Prod.fst).take m)) :=
        List.filter_append _ _
    _ = [] ++ l.drop m := by
        rw [List.filter_eq_nil_iff.mpr h1, List.filter_eq_self.mpr h2]
    _ = l.drop m := List.nil_append _

/-- C5: whenever a snapshot holds more than 10 entries with distinct keys
and at least one of them is new to the seen set, the handler removes from
the store exactly the oldest entries by timestamp beyond the 10 most recent
(Array.prototype.sort is in place, so the pruning slice is taken from the
timestamp-sorted key array): the kept inbox is a permutation of the last 10
entries of the timestamp-sorted snapshot, every removed entry has a
timestamp at most that of every kept entry, and none of the removed keys
survives in the seen set. -/
theorem listen_prunes_oldest_beyond_ten (inbox : List StatusEntry) (seen : List String)
    (hnodup : (inbox.map Prod.fst).Nodup)
    (hnew : ∃ e ∈ inbox, e.1 ∉ seen)
    (hlen : 10 < inbox.length) :
    (processSnapshot inbox seen).inbox.Perm
      ((List.insertionSort tsLE inbox).drop (inbox.length - 10)) ∧
    (∀ e ∈ (List.insertionSort tsLE inbox).take (inbox.length - 10),
      ∀ f ∈ (processSnapshot inbox seen).inbox, tsLE e f) ∧
    (∀ k ∈ ((List.insertionSort tsLE inbox).map Prod.fst).take (inbox.length - 10),
      k ∉ (processSnapshot inbox seen).seen) := by
  obtain ⟨e, he, hes⟩ := hnew
  have hperm0 : (List.insertionSort tsLE inbox).Perm inbox :=
    List.perm_insertionSort tsLE inbox
  have hkp : ((List.insertionSort tsLE inbox).map Prod.fst).Perm (inbox.map Prod.fst) :=
    hperm0.map Prod.fst
  have hnodupS : ((List.insertionSort tsLE inbox).map Prod.fst).Nodup :=
    (hkp.nodup_iff).mpr hnodup
  have hskLen : ((List.insertionSort tsLE inbox).map Prod.fst).length = inbox.length := by
    rw [List.length_map, List.length_insertionSort]
  have hdne : ((List.insertionSort tsLE inbox).filter
      (fun e => decide (e.1 ∉ seen))) ≠ [] := by
    refine List.ne_nil_of_mem (a := e) ?_
    refine List.mem_filter.mpr ⟨?_, by simp [hes]⟩
    exact (List.mem_insertionSort tsLE).mpr he
  have hkl : 10 < ((List.insertionSort tsLE inbox).map Prod.fst).length := by
    rw [hskLen]
    exact hlen
  have hc : ((List.insertionSort tsLE inbox).filter
      (fun e => decide (e.1 ∉ seen))) ≠ [] ∧
      10 < ((List.insertionSort tsLE inbox).map Prod.fst).length := ⟨hdne, hkl⟩
  have hdropS := filter_key_not_mem_take (List.insertionSort tsLE inbox)
    (((List.insertionSort tsLE inbox).map Prod.fst).length - 10) hnodupS
  have hresPerm : (inbox.filter fun e =>
      decide (e.1 ∉ ((List.insertionSort tsLE inbox).map Prod.fst).take
        (((List.insertionSort tsLE inbox).map Prod.fst).length - 10))).Perm
      ((List.insertionSort tsLE inbox).drop
        (((List.insertionSort tsLE inbox).map Prod.fst).length - 10)) := by
    have hpf := (hperm0.symm).filter (fun e =>
      decide (e.1 ∉ ((List.insertionSort tsLE inbox).map Prod.fst).take
        (((List.insertionSort tsLE inbox).map Prod.fst).length - 10)))
    rwa [hdropS] at hpf
  have hinboxEq : (processSnapshot inbox seen).inbox = inbox.filter fun e =>
      decide (e.1 ∉ ((List.insertionSort tsLE inbox).map Prod.fst).take
        (((List.insertionSort tsLE inbox).map Prod.fst).length - 10)) := by
    simp only [processSnapshot]
    rw [if_pos hc]
  rw [hskLen] at hresPerm
  refine ⟨?_, ?_, ?_⟩
  · rw [hinboxEq, hskLen]
    exact hresPerm
  · intro a ha f hf
    rw [hinboxEq, hskLen] at hf
    have hfd : f ∈ (List.insertionSort tsLE inbox).drop (inbox.length - 10) :=
      hresPerm.mem_iff.mp hf
    have hpw : List.Pairwise tsLE
        ((List.insertionSort tsLE inbox).take (inbox.length - 10) ++
          (List.insertionSort tsLE inbox).drop (inbox.length - 10)) := by
      rw [List.take_append_drop]
      exact List.sorted_insertionSort tsLE inbox
    exact (List.pairwise_append.mp hpw).2.2 a ha f hfd
  · intro k hk
    rw [← hskLen] at hk
    simp only [processSnapshot]
    rw [if_pos hc]
    intro hmem
    have hmem2 : k ∈ (seen ++ (((List.insertionSort tsLE inbox).filter
        fun e => decide (e.1 ∉ seen)).map Prod.fst)).filter
          fun k => decide (k ∉ ((List.insertionSort tsLE inbox).map Prod.fst).take
            (((List.insertionSort tsLE inbox).map Prod.fst).length - 10)) := by
      by_cases hcap : 50 < ((seen ++ (((List.insertionSort tsLE inbox).filter
          fun e => decide (e.1 ∉ seen)).map Prod.fst)).filter
            fun k => decide (k ∉ ((List.insertionSort tsLE inbox).map Prod.fst).take
              (((List.insertionSort tsLE inbox).map Prod.fst).length - 10))).length
      · rw [if_pos hcap] at hmem
        exact List.mem_of_mem_drop hmem
      · rw [if_neg hcap] at hmem
        exact hmem
    have hdec := (List.mem_filter.mp hmem2).2
    have hnotin : k ∉ ((List.insertionSort tsLE inbox).map Prod.fst).take
        (((List.insertionSort tsLE inbox).map Prod.fst).length - 10) :=
      of_decide_eq_true hdec
    exact hnotin hk

/-- The inbox of the C5 witness: 11 distinct keys in insertion order; the
last-inserted entry carries the smallest timestamp, so the pruning (which
slices the timestamp-sorted key array) removes it rather than the
first-inserted entry. -/
def c5Inbox : List StatusEntry :=
  [("k01", { stype := "status", message := "m", timestamp := 1 }),
   ("k02", { stype := "status", message := "m", timestamp := 2 }),
   ("k03", { stype := "status", message := "m", timestamp := 3 }),
   ("k04", { stype := "status", message := "m", timestamp := 4 }),
   ("k05", { stype := "status", message := "m", timestamp := 5 }),
   ("k06", { stype := "status", message := "m", timestamp := 6 }),
   ("k07", { stype := "status", message := "m", timestamp := 7 }),
   ("k08", { stype := "status", message := "m", timestamp := 8 }),
   ("k09", { stype := "status", message := "m", timestamp := 9 }),
   ("k10", { stype := "status", message := "m", timestamp := 10 }),
   ("k11", { stype := "status", message := "m", timestamp := 0 })]

/-- C5 witness: an 11-entry snapshot with an empty seen set keeps a
permutation of the 10 timestamp-latest entries, every removed entry is
timestamp-least, and the removed key is evicted from the seen set. -/
theorem listen_prunes_oldest_beyond_ten_witness :
    (processSnapshot c5Inbox []).inbox.Perm
      ((List.insertionSort tsLE c5Inbox).drop (c5Inbox.length - 10)) ∧
    (∀ e ∈ (List.insertionSort tsLE c5Inbox).take (c5Inbox.length - 10),
      ∀ f ∈ (processSnapshot c5Inbox []).inbox, tsLE e f) ∧
    (∀ k ∈ ((List.insertionSort tsLE c5Inbox).map Prod.fst).take (c5Inbox.length - 10),
      k ∉ (processSnapshot c5Inbox []).seen) :=
  listen_prunes_oldest_beyond_ten c5Inbox []
    (by decide)
    ⟨("k01", { stype := "status", message := "m", timestamp := 1 }), by decide, by decide⟩
    (by decide)

end ChatCore
